import Mathlib

/-
Verification of the sequencescape data-mapper layer.

The development shallowly embeds the two mapper implementations of the
repository:

* `Seqscape.Mappers`  — sequencescape/_sqlalchemy/sqlalchemy_mappers.py
* `Seqscape.Legacy`   — sequencescape/sqlalchemy/_sqlalchemy_mapper.py

The relational store is modelled as a list of rows for the table of the mapper
plus a list of study↔sample link rows.  Each operation returns the list of
session/query events it performs together with an `Except` value mirroring
the Python control flow (`ValueError`, `KeyError`, `TypeError`).
-/

namespace Seqscape

/-- Property selector enumeration (`sequencescape.enums.Property`):
INTERNAL_ID, NAME, ACCESSION_NUMBER. -/
inductive Property where
  | internal_id
  | name
  | accession_number
deriving DecidableEq, Repr

/-- A Python scalar value that can be passed to the mappers or stored in a
column: an integer, a string, or (as happens in `Legacy.get_many`) a class
object passed where a scalar was expected. -/
inductive Value where
  | int (i : Int)
  | str (s : String)
  | typeObject
deriving DecidableEq, Repr

/-- The exceptions raised by the mapper layer, named after the error
taxonomy.  `invalidArgument`, `unsupportedOperation` and `integrityViolation`
are all `ValueError` in the Python source (distinguished by message);
`keyError` is the `KeyError` escaping `query_model.__dict__[property]`;
`typeError` is the `TypeError` raised when a call binds an unexpected
keyword argument. -/
inductive Err where
  | invalidArgument
  | unsupportedOperation
  | integrityViolation
  | keyError
  | typeError
deriving DecidableEq, Repr

/-- Whether the exception is a Python `ValueError` (and hence caught by the
`except ValueError` clause in `Legacy.get_many`). -/
def Err.isValueError : Err → Bool
  | .invalidArgument => true
  | .unsupportedOperation => true
  | .integrityViolation => true
  | .keyError => false
  | .typeError => false

/-- Session/query events performed by an operation, in order. -/
inductive Event where
  | sessionCreated
  | queryExecuted
  | committed
  | sessionClosed
deriving DecidableEq, Repr

/-- Modelled from the spec: the plain domain object (`sequencescape/models.py`
is not under src/).  Per spec §3 each entity has an integer internal
identifier, optional name, optional accession number and an `is_current`
flag. -/
structure Model where
  internal_id : Option Int
  name : Option String
  accession_number : Option String
  is_current : Bool
deriving DecidableEq, Repr

/-- Modelled from the spec: the persisted row representation
(`sequencescape/_sqlalchemy/sqlalchemy_models.py` is not under src/); it
carries the same fields as the domain object. -/
structure SQLAlchemyModel where
  internal_id : Option Int
  name : Option String
  accession_number : Option String
  is_current : Bool
deriving DecidableEq, Repr

/-- Modelled from the spec: the model converter
(`sqlalchemy_model_converters`, not under src/) is a bidirectional
field-for-field mapping between a domain object and its row. -/
def convert_to_sqlalchemy_model (m : Model) : SQLAlchemyModel :=
  ⟨m.internal_id, m.name, m.accession_number, m.is_current⟩

/-- Modelled from the spec: inverse direction of the model converter. -/
def convert_to_popo_model (r : SQLAlchemyModel) : Model :=
  ⟨r.internal_id, r.name, r.accession_number, r.is_current⟩

/-- `convert_to_popo_models`: converts a list of rows back to domain
objects. -/
def convert_to_popo_models (rs : List SQLAlchemyModel) : List Model :=
  rs.map convert_to_popo_model

/-- A row of the study↔sample join table
(`SQLAlchemyStudySamplesLink`): spec §3, `(study_internal_id,
sample_internal_id, is_current)`. -/
structure SQLAlchemyStudySamplesLink where
  study_internal_id : Int
  sample_internal_id : Int
  is_current : Bool
deriving DecidableEq, Repr

/-- The relational store: the table of the mapper plus the join table. -/
structure DB where
  table : List SQLAlchemyModel
  links : List SQLAlchemyStudySamplesLink
deriving DecidableEq, Repr

/-- The empty database (as produced by the stub bootstrap used in tests). -/
def emptyDB : DB := ⟨[], []⟩

/-- Static capabilities of a SQLAlchemy model class, standing for the
`issubclass` checks of the source: membership in `SQLAlchemyIsCurrentModel`
(new file) / `SQLAlchemyIsCurrent` (legacy file), membership in
`SQLAlchemyNamed`, and presence of a property in the class `__dict__`. -/
structure SQLAlchemyModelType where
  is_current_capable : Bool
  named_capable : Bool
  has_prop : Property → Bool

/-- Column access for a row by property selector (the source reads the
column object out of the class and the values out of the row). -/
def SQLAlchemyModel.getProperty (r : SQLAlchemyModel) : Property → Option Value
  | .internal_id => r.internal_id.map Value.int
  | .name => r.name.map Value.str
  | .accession_number => r.accession_number.map Value.str

/-- SQL semantics of `column.in_(values)`: a NULL column value never
matches. -/
def sqlInV : Option Value → List Value → Bool
  | none, _ => false
  | some v, values => values.contains v

/-- The `if not isinstance(x, list): x = [x]` normalisation used by `add`
and the association queries. -/
def toSingletonList : Model ⊕ List Model → List Model
  | Sum.inl s => [s]
  | Sum.inr l => l

/-- Python truthiness of an optional scalar: `None`, `0` and `""` are
falsy. -/
def truthy : Option Value → Bool
  | none => false
  | some (.int i) => !(i == 0)
  | some (.str s) => !(s == "")
  | some .typeObject => true

namespace Mappers

/-- `SQLAlchemyMapper.add` (sqlalchemy_mappers.py, lines 33-45): rejects
`None` with `ValueError`, wraps a single model into a list, converts each
model to its row and persists the whole batch in one session, committing
once, then closing the session. -/
def add (db : DB) (models : Option (Model ⊕ List Model)) :
    List Event × Except Err DB :=
  match models with
  | none => ([], .error .invalidArgument)
  | some ms =>
    let modelList := toSingletonList ms
    ([.sessionCreated, .committed, .sessionClosed],
      .ok { db with table := db.table ++ modelList.map convert_to_sqlalchemy_model })

/-- `SQLAlchemyMapper.get_all` (sqlalchemy_mappers.py, lines 47-54): one
session, query filtered by `is_current`, session closed, rows converted
back to domain objects. -/
def get_all (m : SQLAlchemyModelType) (db : DB) :
    List Event × Except Err (List Model) :=
  let _query_model := m
  ([.sessionCreated, .queryExecuted, .sessionClosed],
    .ok (convert_to_popo_models (db.table.filter (fun r => r.is_current))))

/-- `SQLAlchemyMapper._get_by_property_value_list` (sqlalchemy_mappers.py,
lines 56-76): raises `ValueError` if the SQLAlchemy model type is not a
subclass of `SQLAlchemyIsCurrentModel`; then returns `[]` for an empty
values list; then opens a session, reads the column out of
`query_model.__dict__[property]` (a `KeyError` if the class lacks the
property), and filters by membership in the values and by `is_current`,
closing the session. -/
def _get_by_property_value_list (m : SQLAlchemyModelType) (db : DB)
    (property : Property) (required_property_values : List Value) :
    List Event × Except Err (List Model) :=
  if !m.is_current_capable then
    ([], .error .unsupportedOperation)
  else if required_property_values.length == 0 then
    ([], .ok [])
  else if !m.has_prop property then
    ([.sessionCreated], .error .keyError)
  else
    ([.sessionCreated, .queryExecuted, .sessionClosed],
      .ok (convert_to_popo_models (db.table.filter (fun r =>
        sqlInV (r.getProperty property) required_property_values && r.is_current))))

/-- Modelled from the spec: `Mapper.get_by_id` (defined in
`sequencescape/mappers.py`, which is not under src/).  Per spec §4.2 the
association mappers resolve models via `get_many_by_internal_id`, i.e. the
internal-id specialisation of `_get_by_property_value_list`. -/
def get_by_id (m : SQLAlchemyModelType) (db : DB) (ids : List Value) :
    List Event × Except Err (List Model) :=
  _get_by_property_value_list m db .internal_id ids

/-- The link-table query of `get_associated_with_study`:
`study_internal_id.in_(study_ids)` and `is_current`. -/
def studyLinkMatches (db : DB) (studies : List Model) :
    List SQLAlchemyStudySamplesLink :=
  db.links.filter (fun link =>
    (studies.map (fun s => s.internal_id)).contains (some link.study_internal_id)
      && link.is_current)

/-- The link-table query of `get_associated_with_sample`:
`sample_internal_id.in_(sample_ids)` and `is_current`. -/
def sampleLinkMatches (db : DB) (samples : List Model) :
    List SQLAlchemyStudySamplesLink :=
  db.links.filter (fun link =>
    (samples.map (fun s => s.internal_id)).contains (some link.sample_internal_id)
      && link.is_current)

/-- `SQLAlchemySampleMapper.get_associated_with_study`
(sqlalchemy_mappers.py, lines 87-102): normalises a single study to a list,
opens a session (never closed in this method — the source has no
`session.close()`), queries the link table by
`study_internal_id.in_(study_ids)` and `is_current`, returns `[]` when no
links are found, otherwise resolves the collected sample ids through
`get_by_id`.  The source passes the study domain objects themselves to
`in_`; per the repository tests this matches links by the `internal_id` of the studies, and a study without an `internal_id` makes the query raise
`ValueError` (test__get_associated_with_study_with_non_existent_study). -/
def get_associated_with_study (m : SQLAlchemyModelType) (db : DB)
    (study_ids : Model ⊕ List Model) : List Event × Except Err (List Model) :=
  if (toSingletonList study_ids).any (fun s => s.internal_id.isNone) then
    ([.sessionCreated], .error .invalidArgument)
  else if (studyLinkMatches db (toSingletonList study_ids)).isEmpty then
    ([.sessionCreated, .queryExecuted], .ok [])
  else
    ([.sessionCreated, .queryExecuted] ++
      (get_by_id m db (((studyLinkMatches db (toSingletonList study_ids)).map
        (fun l => l.sample_internal_id)).map Value.int)).1,
     (get_by_id m db (((studyLinkMatches db (toSingletonList study_ids)).map
        (fun l => l.sample_internal_id)).map Value.int)).2)

/-- `SQLAlchemyStudyMapper.get_associated_with_sample`
(sqlalchemy_mappers.py, lines 113-128): symmetric to
`get_associated_with_study`, resolving studies for the given samples; the
session opened here is likewise never closed. -/
def get_associated_with_sample (m : SQLAlchemyModelType) (db : DB)
    (sample_ids : Model ⊕ List Model) : List Event × Except Err (List Model) :=
  if (toSingletonList sample_ids).any (fun s => s.internal_id.isNone) then
    ([.sessionCreated], .error .invalidArgument)
  else if (sampleLinkMatches db (toSingletonList sample_ids)).isEmpty then
    ([.sessionCreated, .queryExecuted], .ok [])
  else
    ([.sessionCreated, .queryExecuted] ++
      (get_by_id m db (((sampleLinkMatches db (toSingletonList sample_ids)).map
        (fun l => l.study_internal_id)).map Value.int)).1,
     (get_by_id m db (((sampleLinkMatches db (toSingletonList sample_ids)).map
        (fun l => l.study_internal_id)).map Value.int)).2)

end Mappers

namespace Legacy

/-- `_SQLAlchemyMapper.get_many_by_name` (_sqlalchemy_mapper.py, lines
77-98): empty input short-circuits to `[]`; then the `SQLAlchemyNamed` and
`SQLAlchemyIsCurrent` subclass checks each raise `ValueError` on failure;
then one session queries by `name.in_(names)` and `is_current == 1` and is
closed. -/
def get_many_by_name (m : SQLAlchemyModelType) (db : DB) (names : List Value) :
    List Event × Except Err (List Model) :=
  if names.isEmpty then
    ([], .ok [])
  else if !m.named_capable then
    ([], .error .unsupportedOperation)
  else if !m.is_current_capable then
    ([], .error .unsupportedOperation)
  else
    ([.sessionCreated, .queryExecuted, .sessionClosed],
      .ok (convert_to_popo_models (db.table.filter (fun r =>
        sqlInV (r.name.map Value.str) names && r.is_current))))

/-- `_SQLAlchemyMapper.get_many_by_internal_id` (_sqlalchemy_mapper.py,
lines 100-118): same shape as `get_many_by_name` (it too checks
`SQLAlchemyNamed`), querying by `internal_id.in_(internal_ids)`. -/
def get_many_by_internal_id (m : SQLAlchemyModelType) (db : DB)
    (internal_ids : List Value) : List Event × Except Err (List Model) :=
  if internal_ids.isEmpty then
    ([], .ok [])
  else if !m.named_capable then
    ([], .error .unsupportedOperation)
  else if !m.is_current_capable then
    ([], .error .unsupportedOperation)
  else
    ([.sessionCreated, .queryExecuted, .sessionClosed],
      .ok (convert_to_popo_models (db.table.filter (fun r =>
        sqlInV (r.internal_id.map Value.int) internal_ids && r.is_current))))

/-- `_SQLAlchemyMapper.get_many_by_accession_number` (_sqlalchemy_mapper.py,
lines 120-138): same shape, querying by
`accession_number.in_(accession_numbers)`. -/
def get_many_by_accession_number (m : SQLAlchemyModelType) (db : DB)
    (accession_numbers : List Value) : List Event × Except Err (List Model) :=
  if accession_numbers.isEmpty then
    ([], .ok [])
  else if !m.named_capable then
    ([], .error .unsupportedOperation)
  else if !m.is_current_capable then
    ([], .error .unsupportedOperation)
  else
    ([.sessionCreated, .queryExecuted, .sessionClosed],
      .ok (convert_to_popo_models (db.table.filter (fun r =>
        sqlInV (r.accession_number.map Value.str) accession_numbers && r.is_current))))

/-- The tail of `_SQLAlchemyMapper.get` (_sqlalchemy_mapper.py, lines
46-51): `None` on zero results, `ValueError` (the ambiguous-identity case)
on more than one, the single match otherwise; lookup errors propagate. -/
def getPost (lookup : List Event × Except Err (List Model)) :
    List Event × Except Err (Option Model) :=
  match lookup with
  | (ev, .error e) => (ev, .error e)
  | (ev, .ok result) =>
    if result.length == 0 then (ev, .ok none)
    else if 1 < result.length then (ev, .error .integrityViolation)
    else (ev, .ok result.head?)

/-- `_SQLAlchemyMapper.get` (_sqlalchemy_mapper.py, lines 36-51): picks the
first truthy keyword in the order name, accession_number, internal_id
(raising `ValueError` when all are falsy), performs the corresponding
`get_many_by_*` lookup with a one-element list, then applies `getPost`. -/
def get (m : SQLAlchemyModelType) (db : DB)
    (name accession_number internal_id : Option Value) :
    List Event × Except Err (Option Model) :=
  getPost
    (if truthy name then
      get_many_by_name m db [name.getD (.str "")]
    else if truthy accession_number then
      get_many_by_accession_number m db [accession_number.getD (.str "")]
    else if truthy internal_id then
      get_many_by_internal_id m db [internal_id.getD (.int 0)]
    else
      ([], .error .invalidArgument))

/-- Value of a key in a Python keyword-argument dictionary. -/
def kwLookup (kwargs : List (String × Value)) (key : String) : Option Value :=
  (kwargs.find? (fun kv => kv.1 == key)).map (fun kv => kv.2)

/-- A call `self.get(**kwargs)`: Python binds the keys against the
parameters `name`, `accession_number`, `internal_id` and raises `TypeError`
for any unexpected keyword before the body runs. -/
def get_kwargs (m : SQLAlchemyModelType) (db : DB)
    (kwargs : List (String × Value)) : List Event × Except Err (Option Model) :=
  if kwargs.any (fun kv => !(["name", "accession_number", "internal_id"].contains kv.1)) then
    ([], .error .typeError)
  else
    get m db (kwLookup kwargs "name") (kwLookup kwargs "accession_number")
      (kwLookup kwargs "internal_id")

/-- Loop body of `get_many`: for each `(id_type, id)` tuple it calls
`self.get` with a keyword dictionary holding the key `type` (bound to the SQLAlchemy model class) next to the `id_type` key,
catches only `ValueError` (printing and skipping the id), appends a truthy
result, and lets any other exception propagate. -/
def get_many_go (m : SQLAlchemyModelType) (db : DB) :
    List (String × Value) → List Event → List Model →
    List Event × Except Err (List Model)
  | [], ev, acc => (ev, .ok acc)
  | (id_type, id_val) :: rest, ev, acc =>
    let step := get_kwargs m db [("type", .typeObject), (id_type, id_val)]
    match step with
    | (ev2, .error e) =>
      if e.isValueError then
        get_many_go m db rest (ev ++ ev2) acc
      else
        (ev ++ ev2, .error e)
    | (ev2, .ok result) =>
      match result with
      | some model => get_many_go m db rest (ev ++ ev2) (acc ++ [model])
      | none => get_many_go m db rest (ev ++ ev2) acc

/-- `_SQLAlchemyMapper.get_many` (_sqlalchemy_mapper.py, lines 53-63). -/
def get_many (m : SQLAlchemyModelType) (db : DB)
    (ids_as_tuples : List (String × Value)) :
    List Event × Except Err (List Model) :=
  get_many_go m db ids_as_tuples [] []

end Legacy

/-- The capability profile of the Sample / Study / Library model classes:
named, is-current versioned, and carrying all three lookup properties. -/
def sampleType : SQLAlchemyModelType :=
  ⟨true, true, fun _ => true⟩

/-- A capability profile lacking the `is_current` concept (as the spec
posits for, e.g., the raw link table). -/
def linkLikeType : SQLAlchemyModelType :=
  ⟨false, false, fun _ => false⟩

/-- A capability profile with `is_current` but without the `name` property
in its class dictionary. -/
def noNameType : SQLAlchemyModelType :=
  ⟨true, true, fun p => match p with | .name => false | _ => true⟩

/-- A concrete current domain object. -/
def model1 : Model := ⟨some 1, some "alpha", some "EGAN1", true⟩

/-- A second concrete current domain object. -/
def model2 : Model := ⟨some 2, some "beta", some "EGAN2", true⟩

/-- A concrete non-current domain object. -/
def modelNonCurrent : Model := ⟨some 3, some "gamma", none, false⟩

/-- A study domain object without an internal id. -/
def studyNoId : Model := ⟨none, some "study-x", none, true⟩

/-- A study domain object with internal id 123. -/
def study123 : Model := ⟨some 123, some "study-123", none, true⟩

/-- A database holding the rows of `model1` and `model2` plus a current
link from study 123 to sample 1. -/
def db1 : DB :=
  ⟨[convert_to_sqlalchemy_model model1, convert_to_sqlalchemy_model model2],
   [⟨123, 1, true⟩]⟩

/-- The database produced by adding `modelNonCurrent` to the empty
database. -/
def dbNC : DB := ⟨[convert_to_sqlalchemy_model modelNonCurrent], []⟩

/-- The zero/one/many contract of `Legacy.get` relative to the list of
current rows matching the supplied identifier. -/
def getOutcome (g : List Event × Except Err (Option Model))
    (found : List SQLAlchemyModel) : Prop :=
  (found = [] → g.2 = Except.ok none) ∧
  (found.length = 1 → g.2 = Except.ok (convert_to_popo_models found).head?) ∧
  (1 < found.length → g.2 = Except.error Err.integrityViolation)

/- ------------------------------------------------------------------ -/
/- Helper lemmas                                                      -/
/- ------------------------------------------------------------------ -/

theorem convert_roundtrip (m : Model) :
    convert_to_popo_model (convert_to_sqlalchemy_model m) = m := rfl

theorem convert_to_popo_model_inj : Function.Injective convert_to_popo_model := by
  intro a b h
  cases a
  cases b
  simpa [convert_to_popo_model, Model.mk.injEq, SQLAlchemyModel.mk.injEq] using h

theorem mem_convert_filter {l : List SQLAlchemyModel} {p : SQLAlchemyModel → Bool}
    {x : Model} :
    x ∈ convert_to_popo_models (l.filter p) ↔
      ∃ r, r ∈ l ∧ p r = true ∧ convert_to_popo_model r = x := by
  simp only [convert_to_popo_models, List.mem_map, List.mem_filter]
  constructor
  · rintro ⟨r, ⟨hr, hp⟩, hc⟩
    exact ⟨r, hr, hp, hc⟩
  · rintro ⟨r, hr, hp, hc⟩
    exact ⟨r, ⟨hr, hp⟩, hc⟩

theorem only_current_of_filter {l : List SQLAlchemyModel} {p : SQLAlchemyModel → Bool}
    (hp : ∀ r, p r = true → r.is_current = true) :
    ∀ x ∈ convert_to_popo_models (l.filter p), x.is_current = true := by
  intro x hx
  rcases mem_convert_filter.mp hx with ⟨r, _, hpr, rfl⟩
  exact hp r hpr

theorem only_current_gbpvl (m : SQLAlchemyModelType) (db : DB)
    (property : Property) (vals : List Value) (res : List Model)
    (h : (Mappers._get_by_property_value_list m db property vals).2 = .ok res) :
    ∀ x ∈ res, x.is_current = true := by
  unfold Mappers._get_by_property_value_list at h
  split at h
  · simp at h
  · split at h
    · simp only [Except.ok.injEq] at h
      subst h
      intro x hx
      simp at hx
    · split at h
      · simp at h
      · simp only [Except.ok.injEq] at h
        subst h
        exact only_current_of_filter (fun r hr => by
          simpa using (Bool.and_eq_true _ _ ▸ hr).2)

/- ------------------------------------------------------------------ -/
/- Claim theorems                                                     -/
/- ------------------------------------------------------------------ -/

/-- Claim C2: every retrieval operation — `get_all`,
`_get_by_property_value_list` (the `get_by_property_value_sequence` /
`get_many_by_*` family) and the study↔sample association queries — returns
only domain objects whose `is_current` flag is true; no non-current row
ever appears in a result. -/
theorem retrievals_only_current :
    (∀ m db res, (Mappers.get_all m db).2 = .ok res →
      ∀ x ∈ res, x.is_current = true) ∧
    (∀ m db property vals res,
      (Mappers._get_by_property_value_list m db property vals).2 = .ok res →
      ∀ x ∈ res, x.is_current = true) ∧
    (∀ m db input res,
      (Mappers.get_associated_with_study m db input).2 = .ok res →
      ∀ x ∈ res, x.is_current = true) ∧
    (∀ m db input res,
      (Mappers.get_associated_with_sample m db input).2 = .ok res →
      ∀ x ∈ res, x.is_current = true) ∧
    (∀ m db vals res, (Legacy.get_many_by_name m db vals).2 = .ok res →
      ∀ x ∈ res, x.is_current = true) ∧
    (∀ m db vals res, (Legacy.get_many_by_internal_id m db vals).2 = .ok res →
      ∀ x ∈ res, x.is_current = true) ∧
    (∀ m db vals res, (Legacy.get_many_by_accession_number m db vals).2 = .ok res →
      ∀ x ∈ res, x.is_current = true) := by
  refine ⟨?_, only_current_gbpvl, ?_, ?_, ?_, ?_, ?_⟩
  · intro m db res h
    simp only [Mappers.get_all, Except.ok.injEq] at h
    subst h
    exact only_current_of_filter (fun r hr => hr)
  · intro m db input res h
    unfold Mappers.get_associated_with_study at h
    split at h
    · simp at h
    · split at h
      · simp only [Except.ok.injEq] at h
        subst h
        intro x hx
        simp at hx
      · exact only_current_gbpvl _ _ _ _ _ h
  · intro m db input res h
    unfold Mappers.get_associated_with_sample at h
    split at h
    · simp at h
    · split at h
      · simp only [Except.ok.injEq] at h
        subst h
        intro x hx
        simp at hx
      · exact only_current_gbpvl _ _ _ _ _ h
  · intro m db vals res h
    unfold Legacy.get_many_by_name at h
    split at h
    · simp only [Except.ok.injEq] at h
      subst h
      intro x hx
      simp at hx
    · split at h
      · simp at h
      · split at h
        · simp at h
        · simp only [Except.ok.injEq] at h
          subst h
          exact only_current_of_filter (fun r hr => by
            simpa using (Bool.and_eq_true _ _ ▸ hr).2)
  · intro m db vals res h
    unfold Legacy.get_many_by_internal_id at h
    split at h
    · simp only [Except.ok.injEq] at h
      subst h
      intro x hx
      simp at hx
    · split at h
      · simp at h
      · split at h
        · simp at h
        · simp only [Except.ok.injEq] at h
          subst h
          exact only_current_of_filter (fun r hr => by
            simpa using (Bool.and_eq_true _ _ ▸ hr).2)
  · intro m db vals res h
    unfold Legacy.get_many_by_accession_number at h
    split at h
    · simp only [Except.ok.injEq] at h
      subst h
      intro x hx
      simp at hx
    · split at h
      · simp at h
      · split at h
        · simp at h
        · simp only [Except.ok.injEq] at h
          subst h
          exact only_current_of_filter (fun r hr => by
            simpa using (Bool.and_eq_true _ _ ▸ hr).2)

/-- Witness for C2: a current model retrieved by `get_all` from `db1` has
`is_current = true`, obtained through the claim theorem at a concrete
input. -/
theorem retrievals_only_current_witness : model1.is_current = true := by
  have h := retrievals_only_current.1 sampleType db1 [model1, model2] rfl
  exact h model1 (by simp)

/-- Claim C5: for every entity type whose mapper supports the operation,
`_get_by_property_value_list` (and every legacy `get_many_by_*`
specialisation) returns an empty sequence immediately on an empty values
sequence, performing no session or query event at all. -/
theorem empty_values_short_circuit (m : SQLAlchemyModelType) (db : DB)
    (property : Property) (h : m.is_current_capable = true) :
    Mappers._get_by_property_value_list m db property [] = ([], .ok []) ∧
    Legacy.get_many_by_name m db [] = ([], .ok []) ∧
    Legacy.get_many_by_internal_id m db [] = ([], .ok []) ∧
    Legacy.get_many_by_accession_number m db [] = ([], .ok []) := by
  refine ⟨?_, rfl, rfl, rfl⟩
  simp [Mappers._get_by_property_value_list, h]

/-- Witness for C5 at the capability profile of the sample mapper. -/
theorem empty_values_short_circuit_witness :
    Mappers._get_by_property_value_list sampleType db1 Property.name [] =
      ([], Except.ok []) :=
  (empty_values_short_circuit sampleType db1 Property.name rfl).1

/-- Claim C10: in `_get_by_property_value_list` the `is_current` capability
check precedes the empty-input short-circuit: a model type without the
capability raises even for an empty values sequence. -/
theorem is_current_check_precedes_empty (m : SQLAlchemyModelType) (db : DB)
    (property : Property) (h : m.is_current_capable = false) :
    Mappers._get_by_property_value_list m db property [] =
      ([], .error .unsupportedOperation) := by
  simp [Mappers._get_by_property_value_list, h]

/-- Witness for C10 at a capability profile lacking `is_current`. -/
theorem is_current_check_precedes_empty_witness :
    Mappers._get_by_property_value_list linkLikeType emptyDB Property.internal_id [] =
      ([], Except.error Err.unsupportedOperation) :=
  is_current_check_precedes_empty linkLikeType emptyDB Property.internal_id rfl

/-- Counterexample to C6 as stated: for a model type that has `is_current`
but lacks the `name` property, the call with an empty values sequence
returns `ok []` instead of failing with `UnsupportedOperation`. -/
theorem missing_property_empty_values_cex :
    Mappers._get_by_property_value_list noNameType emptyDB Property.name [] =
      ([], Except.ok []) ∧
    (Mappers._get_by_property_value_list noNameType emptyDB Property.name []).2 ≠
      Except.error Err.unsupportedOperation := by
  refine ⟨rfl, ?_⟩
  rw [show (Mappers._get_by_property_value_list noNameType emptyDB Property.name []).2 =
    Except.ok [] from rfl]
  simp

/-- Claim C6 amended: a model type lacking the `is_current` capability
always fails with `UnsupportedOperation`; a model type with the capability
but without the requested property fails (with the key-lookup error from
`query_model.__dict__[property]`) only when the values sequence is
nonempty. -/
theorem capability_errors (m : SQLAlchemyModelType) (db : DB)
    (property : Property) (vals : List Value) :
    (m.is_current_capable = false →
      Mappers._get_by_property_value_list m db property vals =
        ([], .error .unsupportedOperation)) ∧
    (m.is_current_capable = true → m.has_prop property = false → vals ≠ [] →
      Mappers._get_by_property_value_list m db property vals =
        ([.sessionCreated], .error .keyError)) := by
  constructor
  · intro h
    simp [Mappers._get_by_property_value_list, h]
  · intro h1 h2 h3
    simp [Mappers._get_by_property_value_list, h1, h2, h3]

/-- Witness for the amended C6 at concrete capability profiles. -/
theorem capability_errors_witness :
    Mappers._get_by_property_value_list linkLikeType emptyDB Property.name
      [Value.str "x"] = ([], Except.error Err.unsupportedOperation) ∧
    Mappers._get_by_property_value_list noNameType emptyDB Property.name
      [Value.str "x"] = ([Event.sessionCreated], Except.error Err.keyError) :=
  ⟨(capability_errors linkLikeType emptyDB Property.name [Value.str "x"]).1 rfl,
   (capability_errors noNameType emptyDB Property.name [Value.str "x"]).2 rfl rfl
     (by simp)⟩

/-- Counterexample to C1 as stated: adding a single entity whose
`is_current` flag is false to an empty database makes the subsequent
`get_all` return the empty set, which differs from the added set. -/
theorem add_get_all_roundtrip_cex :
    (Mappers.add emptyDB (some (Sum.inr [modelNonCurrent]))).2 = Except.ok dbNC ∧
    (Mappers.get_all sampleType dbNC).2 = Except.ok ([] : List Model) ∧
    ([] : List Model).toFinset ≠ [modelNonCurrent].toFinset := by
  refine ⟨rfl, rfl, ?_⟩
  simp only [List.toFinset_nil, List.toFinset_cons]
  exact fun hcontra => by simpa using congrArg (fun t => modelNonCurrent ∈ t) hcontra

/-- Claim C1 amended: starting from an empty table, adding a list of
entities all marked `is_current` via `add` and then calling `get_all`
returns a set of domain objects equal to the added set (order
independent). -/
theorem add_get_all_roundtrip (m : SQLAlchemyModelType) (models : List Model)
    (h : ∀ x ∈ models, x.is_current = true) :
    ∃ db2, (Mappers.add emptyDB (some (Sum.inr models))).2 = Except.ok db2 ∧
      ∃ res, (Mappers.get_all m db2).2 = Except.ok res ∧
        res.toFinset = models.toFinset := by
  refine ⟨⟨models.map convert_to_sqlalchemy_model, []⟩, rfl, models, ?_, rfl⟩
  simp only [Mappers.get_all]
  congr 1
  rw [List.filter_eq_self.mpr ?hall]
  case hall =>
    intro a ha
    rcases List.mem_map.mp ha with ⟨x, hx, rfl⟩
    simpa [convert_to_sqlalchemy_model] using h x hx
  show convert_to_popo_models (models.map convert_to_sqlalchemy_model) = models
  rw [convert_to_popo_models, List.map_map,
    show convert_to_popo_model ∘ convert_to_sqlalchemy_model = id from
      funext (fun x => rfl),
    List.map_id]

/-- Witness for the amended C1 on a one-element list of current models. -/
theorem add_get_all_roundtrip_witness :
    ∃ db2, (Mappers.add emptyDB (some (Sum.inr [model1]))).2 = Except.ok db2 ∧
      ∃ res, (Mappers.get_all sampleType db2).2 = Except.ok res ∧
        res.toFinset = [model1].toFinset :=
  add_get_all_roundtrip sampleType [model1] (by
    intro x hx
    simp only [List.mem_singleton] at hx
    subst hx
    rfl)

/-- Counterexample to C4 as stated: supplying two keywords (`name` and
`internal_id`) does not fail with `InvalidArgument`; the lookup simply runs
on `name` (here against an empty database, returning `None`). -/
theorem get_two_keywords_cex :
    (Legacy.get sampleType emptyDB (some (Value.str "alpha")) none
      (some (Value.int 1))).2 = Except.ok none ∧
    (Legacy.get sampleType emptyDB (some (Value.str "alpha")) none
      (some (Value.int 1))).2 ≠ Except.error Err.invalidArgument := by
  refine ⟨rfl, ?_⟩
  rw [show (Legacy.get sampleType emptyDB (some (Value.str "alpha")) none
    (some (Value.int 1))).2 = Except.ok none from rfl]
  simp

/-- Claim C4 amended: `get` fails with `InvalidArgument` exactly when no
truthy keyword is supplied; when several are supplied no error is raised —
the first truthy keyword in the order name, accession_number, internal_id
is used and the rest are ignored. -/
theorem get_first_truthy_keyword (m : SQLAlchemyModelType) (db : DB)
    (name accession_number internal_id : Option Value) :
    (truthy name = false → truthy accession_number = false →
      truthy internal_id = false →
      Legacy.get m db name accession_number internal_id =
        ([], Except.error Err.invalidArgument)) ∧
    (truthy name = true →
      Legacy.get m db name accession_number internal_id =
        Legacy.get m db name none none) ∧
    (truthy name = false → truthy accession_number = true →
      Legacy.get m db name accession_number internal_id =
        Legacy.get m db none accession_number none) ∧
    (truthy name = false → truthy accession_number = false →
      truthy internal_id = true →
      Legacy.get m db name accession_number internal_id =
        Legacy.get m db none none internal_id) := by
  refine ⟨?_, ?_, ?_, ?_⟩
  · intro h1 h2 h3
    simp [Legacy.get, Legacy.getPost, h1, h2, h3]
  · intro h1
    simp [Legacy.get, h1]
  · intro h1 h2
    simp [Legacy.get, h1, h2, show truthy none = false from rfl]
  · intro h1 h2 h3
    simp [Legacy.get, h1, h2, h3, show truthy none = false from rfl]

/-- Witness for the amended C4: with both `name` and `internal_id`
supplied, the call equals the name-only call. -/
theorem get_first_truthy_keyword_witness :
    Legacy.get sampleType db1 (some (Value.str "alpha")) none
      (some (Value.int 1)) =
    Legacy.get sampleType db1 (some (Value.str "alpha")) none none :=
  (get_first_truthy_keyword sampleType db1 (some (Value.str "alpha")) none
    (some (Value.int 1))).2.1 rfl

theorem getOutcome_getPost (ev : List Event) (found : List SQLAlchemyModel) :
    getOutcome (Legacy.getPost (ev, Except.ok (convert_to_popo_models found)))
      found := by
  refine ⟨?_, ?_, ?_⟩
  · intro h
    subst h
    rfl
  · intro h
    simp [Legacy.getPost, convert_to_popo_models, List.length_map, h]
  · intro h
    have h0 : ¬ ((convert_to_popo_models found).length == 0) = true := by
      simp only [convert_to_popo_models, List.length_map, beq_iff_eq]
      omega
    have h1 : 1 < (convert_to_popo_models found).length := by
      simpa [convert_to_popo_models, List.length_map] using h
    simp [Legacy.getPost, h0, h1]

/-- Claim C3: for a mapper whose model type supports the lookups, `get`
returns `None` when zero current rows match the supplied identifier, fails
with `IntegrityViolation` when more than one current row matches, and
returns the single match otherwise — stated for whichever identifier the
call selects (the first truthy one in the order name, accession_number,
internal_id). -/
theorem get_zero_one_many (m : SQLAlchemyModelType) (db : DB)
    (name accession_number internal_id : Option Value)
    (hN : m.named_capable = true) (hC : m.is_current_capable = true) :
    (truthy name = true →
      getOutcome (Legacy.get m db name accession_number internal_id)
        (db.table.filter (fun r =>
          sqlInV (r.name.map Value.str) [name.getD (.str "")] && r.is_current))) ∧
    (truthy name = false → truthy accession_number = true →
      getOutcome (Legacy.get m db name accession_number internal_id)
        (db.table.filter (fun r =>
          sqlInV (r.accession_number.map Value.str)
            [accession_number.getD (.str "")] && r.is_current))) ∧
    (truthy name = false → truthy accession_number = false →
      truthy internal_id = true →
      getOutcome (Legacy.get m db name accession_number internal_id)
        (db.table.filter (fun r =>
          sqlInV (r.internal_id.map Value.int)
            [internal_id.getD (.int 0)] && r.is_current))) := by
  refine ⟨?_, ?_, ?_⟩
  · intro ht
    have hred : Legacy.get m db name accession_number internal_id =
        Legacy.getPost ([.sessionCreated, .queryExecuted, .sessionClosed],
          Except.ok (convert_to_popo_models (db.table.filter (fun r =>
            sqlInV (r.name.map Value.str) [name.getD (.str "")] &&
              r.is_current)))) := by
      simp [Legacy.get, Legacy.get_many_by_name, ht, hN, hC]
    rw [hred]
    exact getOutcome_getPost _ _
  · intro h1 h2
    have hred : Legacy.get m db name accession_number internal_id =
        Legacy.getPost ([.sessionCreated, .queryExecuted, .sessionClosed],
          Except.ok (convert_to_popo_models (db.table.filter (fun r =>
            sqlInV (r.accession_number.map Value.str)
              [accession_number.getD (.str "")] && r.is_current)))) := by
      simp [Legacy.get, Legacy.get_many_by_accession_number, h1, h2, hN, hC]
    rw [hred]
    exact getOutcome_getPost _ _
  · intro h1 h2 h3
    have hred : Legacy.get m db name accession_number internal_id =
        Legacy.getPost ([.sessionCreated, .queryExecuted, .sessionClosed],
          Except.ok (convert_to_popo_models (db.table.filter (fun r =>
            sqlInV (r.internal_id.map Value.int)
              [internal_id.getD (.int 0)] && r.is_current)))) := by
      simp [Legacy.get, Legacy.get_many_by_internal_id, h1, h2, h3, hN, hC]
    rw [hred]
    exact getOutcome_getPost _ _

/-- Witness for C3: on `db1` a lookup by name "alpha" matches exactly one
current row and `get` returns it. -/
theorem get_zero_one_many_witness :
    (Legacy.get sampleType db1 (some (Value.str "alpha")) none none).2 =
      Except.ok (some model1) := by
  have h := (get_zero_one_many sampleType db1 (some (Value.str "alpha"))
    none none rfl rfl).1 rfl
  have h1 := h.2.1 (by rfl)
  rw [h1]
  rfl

/-- C8 (code bug): `get_many` builds the call
`self.get` with a keyword dictionary holding the key `type`; `get` has no such
parameter, so the very first iteration raises `TypeError`, which the
`except ValueError` clause does not catch — every nonempty batch aborts
before resolving anything, contrary to the documented log-and-skip
behaviour. -/
theorem get_many_always_type_error (m : SQLAlchemyModelType) (db : DB)
    (tuples : List (String × Value)) (h : tuples ≠ []) :
    (Legacy.get_many m db tuples).2 = Except.error Err.typeError := by
  cases tuples with
  | nil => exact absurd rfl h
  | cons t rest =>
    obtain ⟨id_type, id_val⟩ := t
    simp [Legacy.get_many, Legacy.get_many_go, Legacy.get_kwargs,
      Err.isValueError]

/-- Witness for C8 at a concrete one-element batch. -/
theorem get_many_always_type_error_witness :
    (Legacy.get_many sampleType db1 [("name", Value.str "alpha")]).2 =
      Except.error Err.typeError :=
  get_many_always_type_error sampleType db1 [("name", Value.str "alpha")]
    (by simp)

theorem gbpvl_closed_le_created (m : SQLAlchemyModelType) (db : DB)
    (property : Property) (vals : List Value) :
    ((Mappers._get_by_property_value_list m db property vals).1.count
      Event.sessionClosed) ≤
    ((Mappers._get_by_property_value_list m db property vals).1.count
      Event.sessionCreated) := by
  unfold Mappers._get_by_property_value_list
  split
  · decide
  · split
    · decide
    · split
      · decide
      · dsimp only
        decide

/-- C9 (code bug): `get_associated_with_study` opens a session it never
closes — in every execution path the count of session-closed events stays
strictly below the count of session-created events, contradicting the
claim that every public operation closes the session it opens. -/
theorem assoc_study_session_leak (m : SQLAlchemyModelType) (db : DB)
    (input : Model ⊕ List Model) :
    ((Mappers.get_associated_with_study m db input).1.count
      Event.sessionClosed) <
    ((Mappers.get_associated_with_study m db input).1.count
      Event.sessionCreated) := by
  unfold Mappers.get_associated_with_study
  split
  · decide
  · split
    · decide
    · have h := gbpvl_closed_le_created m db Property.internal_id
        (((Mappers.studyLinkMatches db (toSingletonList input)).map
          (fun l => l.sample_internal_id)).map Value.int)
      simp only [Mappers.get_by_id, List.count_append]
      simp only [Mappers.get_by_id] at h
      have hc : List.count Event.sessionClosed
        [Event.sessionCreated, Event.queryExecuted] = 0 := by decide
      have hd : List.count Event.sessionCreated
        [Event.sessionCreated, Event.queryExecuted] = 1 := by decide
      rw [hc, hd]
      omega

/-- Counterexample to C7 as stated: querying with a study that carries no
internal_id makes the call fail (the `ValueError` pinned by the repository
test for a blank `Study()`), instead of returning an empty sequence even
though no current links exist. -/
theorem assoc_study_no_internal_id_cex :
    (Mappers.get_associated_with_study sampleType emptyDB
      (Sum.inl studyNoId)).2 = Except.error Err.invalidArgument ∧
    (Mappers.get_associated_with_study sampleType emptyDB
      (Sum.inl studyNoId)).2 ≠ Except.ok ([] : List Model) := by
  refine ⟨rfl, ?_⟩
  rw [show (Mappers.get_associated_with_study sampleType emptyDB
    (Sum.inl studyNoId)).2 = Except.error Err.invalidArgument from rfl]
  simp

theorem mem_studyLinkMatches {db : DB} {studies : List Model}
    {link : SQLAlchemyStudySamplesLink} :
    link ∈ Mappers.studyLinkMatches db studies ↔
      link ∈ db.links ∧
        some link.study_internal_id ∈ studies.map (fun s => s.internal_id) ∧
        link.is_current = true := by
  simp [Mappers.studyLinkMatches, List.mem_filter, Bool.and_eq_true, and_assoc]

theorem sqlInV_sample_ids_iff (db : DB) (studies : List Model)
    (r : SQLAlchemyModel) :
    sqlInV (r.getProperty Property.internal_id)
      (((Mappers.studyLinkMatches db studies).map
        (fun l => l.sample_internal_id)).map Value.int) = true ↔
      ∃ link ∈ db.links, link.is_current = true ∧
        some link.study_internal_id ∈ studies.map (fun s => s.internal_id) ∧
        r.internal_id = some link.sample_internal_id := by
  rw [show r.getProperty Property.internal_id = r.internal_id.map Value.int from rfl]
  cases hri : r.internal_id with
  | none =>
    simp [sqlInV]
  | some i =>
    show (((Mappers.studyLinkMatches db studies).map
      (fun l => l.sample_internal_id)).map Value.int).elem (Value.int i) =
        true ↔ _
    rw [List.elem_eq_mem, decide_eq_true_eq, List.mem_map]
    constructor
    · rintro ⟨j, hj, hij⟩
      rw [List.mem_map] at hj
      rcases hj with ⟨link, hlm, hsample⟩
      rcases mem_studyLinkMatches.mp hlm with ⟨hl, hsid, hc⟩
      refine ⟨link, hl, hc, hsid, ?_⟩
      have hji : j = i := by
        simpa [Value.int.injEq] using hij
      rw [hsample, hji]
    · rintro ⟨link, hl, hc, hsid, hrid⟩
      injection hrid with hh
      refine ⟨link.sample_internal_id, ?_, by rw [hh]⟩
      rw [List.mem_map]
      exact ⟨link, mem_studyLinkMatches.mpr ⟨hl, hsid, hc⟩, rfl⟩

/-- Claim C7 amended: for every study or list of studies in which each
study carries an internal_id (a study without one makes the underlying
query raise instead, per the repository tests), and a mapper capable of
internal-id lookup, `get_associated_with_study` succeeds and returns
exactly the current samples having a current link to at least one of the
given studies — in particular an empty sequence, without error, when no
current links exist — and holds each sample at most once provided current
rows have pairwise distinct internal ids. -/
theorem get_associated_with_study_spec (m : SQLAlchemyModelType) (db : DB)
    (input : Model ⊕ List Model)
    (hC : m.is_current_capable = true)
    (hP : m.has_prop Property.internal_id = true)
    (hs : ∀ s ∈ toSingletonList input, s.internal_id.isSome = true) :
    ∃ res, (Mappers.get_associated_with_study m db input).2 = Except.ok res ∧
      (∀ x, x ∈ res ↔ ∃ r ∈ db.table, convert_to_popo_model r = x ∧
        r.is_current = true ∧ ∃ link ∈ db.links, link.is_current = true ∧
          some link.study_internal_id ∈
            (toSingletonList input).map (fun s => s.internal_id) ∧
          r.internal_id = some link.sample_internal_id) ∧
      (((db.table.filter (fun r => r.is_current)).map
          (fun r => r.internal_id)).Nodup → res.Nodup) := by
  have hany : ((toSingletonList input).any
      (fun s => s.internal_id.isNone)) = false := by
    rw [List.any_eq_false]
    intro s hsl
    rcases Option.isSome_iff_exists.mp (hs s hsl) with ⟨a, ha⟩
    simp [ha]
  unfold Mappers.get_associated_with_study
  rw [hany]
  rw [if_neg (by simp)]
  by_cases hsE :
    (Mappers.studyLinkMatches db (toSingletonList input)).isEmpty = true
  · rw [if_pos hsE]
    refine ⟨[], rfl, ?_, fun _ => List.nodup_nil⟩
    intro x
    simp only [List.not_mem_nil, false_iff, not_exists]
    intro r
    rintro ⟨hr, hconv, hcur, link, hlink, hlcur, hsid, hrid⟩
    rw [List.isEmpty_iff] at hsE
    have hmem : link ∈ Mappers.studyLinkMatches db (toSingletonList input) :=
      mem_studyLinkMatches.mpr ⟨hlink, hsid, hlcur⟩
    rw [hsE] at hmem
    simp at hmem
  · rw [if_neg hsE]
    have hlen : ¬ (((((Mappers.studyLinkMatches db (toSingletonList input)).map
        (fun l => l.sample_internal_id)).map Value.int)).length == 0) = true := by
      simp only [List.length_map, beq_iff_eq, List.length_eq_zero]
      intro h0
      rw [h0] at hsE
      exact hsE rfl
    have hred : (Mappers.get_by_id m db
        (((Mappers.studyLinkMatches db (toSingletonList input)).map
          (fun l => l.sample_internal_id)).map Value.int)).2 =
        Except.ok (convert_to_popo_models (db.table.filter (fun r =>
          sqlInV (r.getProperty Property.internal_id)
            (((Mappers.studyLinkMatches db (toSingletonList input)).map
              (fun l => l.sample_internal_id)).map Value.int) &&
            r.is_current))) := by
      unfold Mappers.get_by_id Mappers._get_by_property_value_list
      rw [hC]
      rw [if_neg (by simp)]
      rw [if_neg hlen]
      rw [hP]
      rw [if_neg (by simp)]
    refine ⟨convert_to_popo_models (db.table.filter (fun r =>
        sqlInV (r.getProperty Property.internal_id)
          (((Mappers.studyLinkMatches db (toSingletonList input)).map
            (fun l => l.sample_internal_id)).map Value.int) &&
          r.is_current)), hred, ?_, ?_⟩
    · intro x
      rw [mem_convert_filter]
      constructor
      · rintro ⟨r, hr, hp, hconv⟩
        rw [Bool.and_eq_true] at hp
        obtain ⟨hsq, hcur⟩ := hp
        rcases (sqlInV_sample_ids_iff db (toSingletonList input) r).mp hsq with
          ⟨link, hlink, hlcur, hsid, hrid⟩
        exact ⟨r, hr, hconv, hcur, link, hlink, hlcur, hsid, hrid⟩
      · rintro ⟨r, hr, hconv, hcur, link, hlink, hlcur, hsid, hrid⟩
        refine ⟨r, hr, ?_, hconv⟩
        rw [Bool.and_eq_true]
        exact ⟨(sqlInV_sample_ids_iff db (toSingletonList input) r).mpr
          ⟨link, hlink, hlcur, hsid, hrid⟩, hcur⟩
    · intro hnd
      have h1 : (db.table.filter (fun r => r.is_current)).Nodup :=
        List.Nodup.of_map _ hnd
      have h2 : ((db.table.filter (fun r => r.is_current)).filter
          (fun r => sqlInV (r.getProperty Property.internal_id)
            (((Mappers.studyLinkMatches db (toSingletonList input)).map
              (fun l => l.sample_internal_id)).map Value.int))).Nodup :=
        h1.filter _
      rw [List.filter_filter] at h2
      exact List.Nodup.map convert_to_popo_model_inj h2

/-- Witness for the amended C7: on `db1` the study 123 resolves to exactly
the linked current sample `model1`. -/
theorem get_associated_with_study_spec_witness :
    ∃ res, (Mappers.get_associated_with_study sampleType db1
      (Sum.inl study123)).2 = Except.ok res ∧
      (∀ x, x ∈ res ↔ ∃ r ∈ db1.table, convert_to_popo_model r = x ∧
        r.is_current = true ∧ ∃ link ∈ db1.links, link.is_current = true ∧
          some link.study_internal_id ∈
            (toSingletonList (Sum.inl study123)).map (fun s => s.internal_id) ∧
          r.internal_id = some link.sample_internal_id) ∧
      (((db1.table.filter (fun r => r.is_current)).map
          (fun r => r.internal_id)).Nodup → res.Nodup) :=
  get_associated_with_study_spec sampleType db1 (Sum.inl study123) rfl rfl (by
    intro s hsl
    simp only [toSingletonList, List.mem_singleton] at hsl
    subst hsl
    rfl)

end Seqscape
